import Mathlib

/-
Verification of the autostrada per-make price-model lifecycle.

Serving side is embedded from src/models/model_app.py (the zip-bundle
variant): a Flask route `predict` backed by a module-level dictionary
`models_cache` and a loader `load_models_for_make` that downloads and
unpacks a per-make bundle.  Training side is embedded from
src/scripts/train-model.py: `fetch_data`, `prepare_data`,
`encode_features`, `train_model`, `save_model`, `save_model_params`, and
the per-make body of `main`.

Numbers carried by records and requests are embedded as rationals
(JSON/database numerics); transcendental transforms (log, log1p, exp)
land in the reals.  The sklearn regressor and the GridSearchCV fit are
external library calls: they are abstracted as an oracle consuming
exactly the arguments the source passes (feature matrix, target,
sample-weight column) and producing a fitted function, a score and the
chosen hyperparameters.  External I/O (object storage, metadata store)
is abstracted as functions and as an effect trace.
-/

namespace Autostrada

/-! ## Serving data model (src/models/model_app.py) -/

/-- A fitted sklearn `LabelEncoder`: a frozen list of classes; `transform`
maps a string to its index and fails (sklearn raises `ValueError`) on a
string outside the classes. -/
structure LabelEncoder where
  classes : List String
deriving DecidableEq

/-- `LabelEncoder.transform` on a single value: index in the fitted
classes, or `none` for the `ValueError` sklearn raises on unseen labels. -/
def LabelEncoder.transform (e : LabelEncoder) (s : String) : Option Nat :=
  e.classes.findIdx? (· == s)

/-- The per-make bundle held in the serving cache: the pickled regressor
(abstracted as a function from the feature row to the predicted
log-price) plus the three pickled label encoders. -/
structure ModelBundle where
  model : List ℝ → ℝ
  labels_model : LabelEncoder
  labels_color : LabelEncoder
  labels_transmission : LabelEncoder

/-- The object-storage boundary: downloading and unpacking
`{make}/model.zip` either yields a full bundle or fails. -/
def Storage : Type := String → Option ModelBundle

/-- The module-level `models_cache` dictionary.  Crucially its values are
`Option ModelBundle`: the source stores the result of
`load_models_for_make` unconditionally, so a failed load is stored as
Python `None`.  Insertion is modelled by consing (lookup returns the
first, i.e. most recent, binding). -/
def Cache : Type := List (String × Option ModelBundle)

/-- Membership/lookup in `models_cache`: `none` means the make is absent
(`make not in models_cache`); `some v` means present with value `v`. -/
def cacheLookup (c : Cache) (mk : String) : Option (Option ModelBundle) :=
  List.lookup mk c

/-- `models_cache[make] = v`. -/
def cacheStore (c : Cache) (mk : String) (v : Option ModelBundle) : Cache :=
  (mk, v) :: c

/-- `load_models_for_make`: download the zip, extract, unpickle all four
entries; any exception is caught and `None` returned. -/
def load_models_for_make (storage : Storage) (mk : String) : Option ModelBundle :=
  storage mk

/-- The JSON body of a prediction request after `request.get_json()`:
each `data.get(key)` is an `Option`. -/
structure PredReq where
  make : Option String
  model : Option String
  year : Option ℚ
  mileage : Option ℚ
  normalized_color : Option String
  transmission : Option String

/-- The HTTP response of the route: either the JSON
`prediction` field, or a JSON `error` message with its status code. -/
inductive Resp where
  | ok (prediction : ℤ)
  | err (msg : String) (status : Nat)

/-- Python `int()` on a float: truncation toward zero. -/
noncomputable def pyInt (x : ℝ) : ℤ := if 0 ≤ x then ⌊x⌋ else ⌈x⌉

/-- The single-row DataFrame built by the route, with columns in the
source's order `year, model, mileage, normalized_color, transmission, W`,
after the categorical transforms, the `log1p` of mileage, and `W = 1`. -/
noncomputable def servingRow (yr mi : ℚ) (im ic it : Nat) : List ℝ :=
  [(yr : ℝ), (im : ℝ), Real.log (1 + (mi : ℝ)), (ic : ℝ), (it : ℝ), 1]

/-- The transform-and-predict tail of the route body: the three encoder
transforms (any unseen label raises, lands in the catch-all handler as a
500), then `np.exp` of the regressor output, jsonified through `int()`. -/
noncomputable def serveTransformAndPredict (b : ModelBundle) (mdl : String)
    (yr mi : ℚ) (col tr : String) : Resp :=
  match b.labels_model.transform mdl, b.labels_color.transform col,
        b.labels_transmission.transform tr with
  | some im, some ic, some it =>
      Resp.ok (pyInt (Real.exp (b.model (servingRow yr mi im ic it))))
  | _, _, _ =>
      Resp.err "Error during prediction: y contains previously unseen labels" 500

/-- Result of one call to the route: the cache after the call, the HTTP
response, and whether `load_models_for_make` was invoked during the
call. -/
structure PredOut where
  cache : Cache
  resp : Resp
  didLoad : Bool

/-- The `/models/predict` route body.  Order is the source's: extract the
six features, return 400 if any is `None`; consult `models_cache`, on a
miss store the loader's result (even when it is `None`) and 500 on a
failed fresh load; on a poisoned entry (`None` cached earlier) the
subscript of `None` raises `TypeError`, caught by the broad handler as a
500; otherwise transform and predict. -/
noncomputable def predict (storage : Storage) (c : Cache) (req : PredReq) : PredOut :=
  match req.make, req.model, req.year, req.mileage,
        req.normalized_color, req.transmission with
  | some mk, some mdl, some yr, some mi, some col, some tr =>
    (match cacheLookup c mk with
    | none =>
        let loaded := load_models_for_make storage mk
        let c' := cacheStore c mk loaded
        (match loaded with
        | none =>
            ⟨c', Resp.err ("Failed to load models for make: " ++ mk) 500, true⟩
        | some b =>
            ⟨c', serveTransformAndPredict b mdl yr mi col tr, true⟩)
    | some none =>
        ⟨c, Resp.err
          "Error during prediction: NoneType object is not subscriptable" 500, false⟩
    | some (some b) =>
        ⟨c, serveTransformAndPredict b mdl yr mi col tr, false⟩)
  | _, _, _, _, _, _ =>
      ⟨c, Resp.err "Missing required features" 400, false⟩

/-- One row of the `bat_completed_auctions` table as selected by
`fetch_data`: every selected column may be null in the store. -/
structure DbRecord where
  year : Option Int
  model : Option String
  mileage : Option ℚ
  normalized_color : Option String
  transmission : Option String
  sold_price : Option ℚ
  bid_amount : Option ℚ
  end_date : Option Int
  status : Option String

/-- A row surviving the query's not-null filters on
`model, year, normalized_color, mileage, transmission`. -/
structure TrainRecord where
  year : Int
  model : String
  mileage : ℚ
  normalized_color : String
  transmission : String
  sold_price : Option ℚ
  bid_amount : Option ℚ
  end_date : Option Int
  status : Option String

/-- The `.not_.is_(col, None)` filters of the `fetch_data` query. -/
def rowComplete (r : DbRecord) : Option TrainRecord :=
  match r.year, r.model, r.mileage, r.normalized_color, r.transmission with
  | some y, some m, some mi, some c, some t =>
      some ⟨y, m, mi, c, t, r.sold_price, r.bid_amount, r.end_date, r.status⟩
  | _, _, _, _, _ => none

/-- `fetch_data`: query the table for the make with the not-null filters,
then restrict to model values occurring at least `min_observations` times
in the fetched frame. -/
def fetch_data (table : List DbRecord) (min_observations : Nat) : List TrainRecord :=
  let df := table.filterMap rowComplete
  df.filter (fun r => min_observations ≤ df.countP (fun s => s.model == r.model))

/-- The outlier ceiling of `prepare_data`. -/
def price_threshold : ℚ := 1000000

/-- `df['sold_price'].fillna(df['bid_amount'])` on one row. -/
def filled_price (r : TrainRecord) : Option ℚ :=
  r.sold_price.orElse (fun _ => r.bid_amount)

/-- Row survival in `prepare_data`: after the fillna, `df.dropna()` keeps
a row only when every remaining column is non-null (this includes
`bid_amount`, `end_date` and `status`), and the outlier drop then removes
rows with `sold_price >= 1000000`. -/
def keepRow (r : TrainRecord) : Bool :=
  match filled_price r, r.bid_amount, r.end_date, r.status with
  | some p, some _, some _, some _ => decide (p < price_threshold)
  | _, _, _, _ => false

/-- A row of the training frame `X` after `prepare_data`: mileage is
log1p-transformed, the categorical columns are still strings, and `W` is
the recency weight column. -/
structure PrepRow where
  year : Int
  model : String
  mileage : ℝ
  normalized_color : String
  transmission : String
  W : ℝ

/-- The recency weight `K * exp(-days_since_end / T)` with `K = 1`,
`T = 360`, `days_since_end = (today - end_date).dt.days`. -/
noncomputable def recencyWeight (today end_days : Int) : ℝ :=
  let K : ℝ := 1
  let T : ℝ := 360
  K * Real.exp (-(((today - end_days : Int) : ℝ)) / T)

/-- One surviving row's `X` columns after the transforms of
`prepare_data` (the dropped rows never reach this point, so the `getD`
defaults are never exercised on kept rows). -/
noncomputable def mkPrepRow (today : Int) (r : TrainRecord) : PrepRow :=
  ⟨r.year, r.model, Real.log (1 + (r.mileage : ℝ)), r.normalized_color,
   r.transmission, recencyWeight today (r.end_date.getD 0)⟩

/-- One surviving row's target `y = log(sold_price)` after the fillna. -/
noncomputable def targetOf (r : TrainRecord) : ℝ :=
  Real.log (((filled_price r).getD 0 : ℝ))

/-- `prepare_data`: fill prices, drop incomplete rows, drop price
outliers, log-transform price and mileage, compute the recency weight;
return the feature frame `X` (which keeps the `W` column) and the target
`y`. -/
noncomputable def prepare_data (rows : List TrainRecord) (today : Int) :
    List PrepRow × List ℝ :=
  let kept := rows.filter keepRow
  (kept.map (mkPrepRow today), kept.map targetOf)

/-- Unicode-code-point lexicographic order on strings, the order numpy
sorts the vocabulary into inside `LabelEncoder.fit`. -/
def strLexLe : List Char → List Char → Bool
  | [], _ => true
  | _ :: _, [] => false
  | a :: as, b :: bs =>
    if a.val.toNat < b.val.toNat then true
    else if b.val.toNat < a.val.toNat then false
    else strLexLe as bs

/-- Insertion step of the vocabulary sort. -/
def insertSorted (s : String) : List String → List String
  | [] => [s]
  | t :: ts => if strLexLe s.data t.data then s :: t :: ts else t :: insertSorted s ts

/-- Sort a vocabulary lexicographically. -/
def sortStrings (l : List String) : List String := l.foldr insertSorted []

/-- `LabelEncoder.fit` over a column: the classes are the sorted distinct
observed values. -/
def fitEncoder (vals : List String) : LabelEncoder :=
  ⟨sortStrings vals.dedup⟩

/-- `fit_transform` on a value observed during the fit (the default is
never exercised: a fitted value is always found). -/
def encIndex (e : LabelEncoder) (s : String) : Nat :=
  (e.transform s).getD 0

/-- A row of the encoded frame `X` handed to the fit: the three
categorical columns are now small integers; `W` is still a column of the
frame. -/
structure FeatureRow where
  year : Int
  model : Nat
  mileage : ℝ
  normalized_color : Nat
  transmission : Nat
  W : ℝ

/-- `encode_features`: fit one `LabelEncoder` per categorical column over
the observed vocabulary and transform the columns in place. -/
noncomputable def encode_features (X : List PrepRow) :
    List FeatureRow × LabelEncoder × LabelEncoder × LabelEncoder :=
  let Lbl_model := fitEncoder (X.map (·.model))
  let Lbl_color := fitEncoder (X.map (·.normalized_color))
  let Lbl_trans := fitEncoder (X.map (·.transmission))
  (X.map (fun r =>
      ⟨r.year, encIndex Lbl_model r.model, r.mileage,
       encIndex Lbl_color r.normalized_color,
       encIndex Lbl_trans r.transmission, r.W⟩),
   Lbl_model, Lbl_color, Lbl_trans)

/-- The numeric vector a frame row presents to sklearn, in the frame's
column order `year, model, mileage, normalized_color, transmission, W`. -/
noncomputable def toVector (r : FeatureRow) : List ℝ :=
  [(r.year : ℝ), (r.model : ℝ), r.mileage,
   (r.normalized_color : ℝ), (r.transmission : ℝ), r.W]

/-- The arguments `train_model` passes to `CV_rfc.fit`: the full frame
`X` as the feature matrix, the target `y`, and the frame's `W` column as
`sample_weight`. -/
structure FitCall where
  matrix : List (List ℝ)
  target : List ℝ
  sampleWeight : List ℝ

/-- `CV_rfc.best_params_` of the grid search. -/
structure Params where
  n_estimators : Nat
  criterion : String

/-- What the external grid search returns: the fitted regressor, the
training-set score `CV_rfc.score(X, y)`, and the chosen parameters. -/
structure FitResult where
  model : List ℝ → ℝ
  score : ℝ
  best_params : Params

/-- The external sklearn `GridSearchCV` fit, abstracted as an oracle over
exactly the arguments the source passes it. -/
def Sklearn : Type := FitCall → FitResult

/-- The fit-call `train_model` builds at lines 100-102: matrix
`X` (all six columns, `W` included), target `y`, sample weight
`X['W']`. -/
noncomputable def fitCallOf (X : List FeatureRow) (y : List ℝ) : FitCall :=
  ⟨X.map toVector, y, X.map (·.W)⟩

/-- `train_model`: run the grid search on the frame and return the
fitted search object, its training score and its best parameters. -/
noncomputable def train_model (sk : Sklearn) (X : List FeatureRow) (y : List ℝ) :
    FitResult :=
  sk (fitCallOf X y)

/-! ## Persistence effects of a training run -/

/-- The externally visible persistence actions of one make's run:
`save_model_params` upserting `(make, score, params)` into the
`prediction_models` table, and `save_model` writing the zip bundle. -/
inductive Effect where
  | metaUpsert (make : String) (score : ℝ) (params : Params)
  | bundleSave (make : String)

/-- How one make's run ends. -/
inductive RunStatus where
  | skippedInsufficientData
  | completed
  | failed

/-- The per-make body shared by the single-make and batch paths of
`main`: fetch, skip below 20 rows, prepare, encode, train, then
`save_model_params` followed by `save_model`.  `metaOk` models whether
the metadata upsert succeeds (its exceptions are caught inside
`save_model_params`, so the run continues either way); `saveOk` models
whether `save_model` completes (its exception aborts the rest of the
body and is caught by the per-make handler in `main`). -/
noncomputable def process_make (sk : Sklearn) (table : List DbRecord) (make : String)
    (today : Int) (metaOk saveOk : Bool) : List Effect × RunStatus :=
  let df := fetch_data table 10
  if df.length < 20 then ([], RunStatus.skippedInsufficientData)
  else
    let Xy := prepare_data df today
    let enc := encode_features Xy.1
    let fr := train_model sk enc.1 Xy.2
    let metaEff : List Effect :=
      if metaOk then [Effect.metaUpsert make fr.score fr.best_params] else []
    if saveOk then (metaEff ++ [Effect.bundleSave make], RunStatus.completed)
    else (metaEff, RunStatus.failed)

/-- The `--make` path of `main`. -/
noncomputable def mainSingle (sk : Sklearn) (table : List DbRecord) (make : String)
    (today : Int) (metaOk saveOk : Bool) : List Effect × RunStatus :=
  process_make sk table make today metaOk saveOk

/-- The batch path of `main`: every known make is processed in turn; a
make's failure or skip never aborts the loop. -/
noncomputable def mainBatch (sk : Sklearn) (tables : String → List DbRecord)
    (makes : List String) (today : Int) (metaOk saveOk : String → Bool) :
    List (String × List Effect × RunStatus) :=
  makes.map (fun mk =>
    (mk, process_make sk (tables mk) mk today (metaOk mk) (saveOk mk)))

/-! ## Interleaving model of two concurrent first-requests

The cache interaction of the route body for a fixed make, split at the
points where the Flask worker can be preempted: the membership test
`make not in models_cache`, the blocking download inside
`load_models_for_make` (which releases the interpreter lock during
I/O), and the dictionary store `models_cache[make] = ...`.  Each step is
atomic; two request threads interleave freely. -/

/-- Progress of one request thread through the cache section. -/
inductive TState where
  | start
  | fetched (r : Option ModelBundle)
  | finished (r : Option ModelBundle)

/-- Shared state of the serving process with two threads working on the
same make: the `models_cache` dictionary, both thread states, and the
number of bundle downloads performed so far. -/
structure CState where
  cache : Cache
  t1 : TState
  t2 : TState
  downloads : Nat

/-- One interleaved step.  A thread at `start` either misses (the make is
absent: it performs the download, one more download is counted, and it
holds the result, not yet stored) or hits (the make is present: it uses
the cached value).  A thread holding a fetched result stores it into the
dictionary. -/
inductive CStep (storage : Storage) (mk : String) : CState → CState → Prop where
  | miss1 (c : Cache) (t : TState) (n : Nat) (h : cacheLookup c mk = none) :
      CStep storage mk ⟨c, TState.start, t, n⟩
        ⟨c, TState.fetched (load_models_for_make storage mk), t, n + 1⟩
  | miss2 (c : Cache) (t : TState) (n : Nat) (h : cacheLookup c mk = none) :
      CStep storage mk ⟨c, t, TState.start, n⟩
        ⟨c, t, TState.fetched (load_models_for_make storage mk), n + 1⟩
  | hit1 (c : Cache) (t : TState) (n : Nat) (v : Option ModelBundle)
      (h : cacheLookup c mk = some v) :
      CStep storage mk ⟨c, TState.start, t, n⟩ ⟨c, TState.finished v, t, n⟩
  | hit2 (c : Cache) (t : TState) (n : Nat) (v : Option ModelBundle)
      (h : cacheLookup c mk = some v) :
      CStep storage mk ⟨c, t, TState.start, n⟩ ⟨c, t, TState.finished v, n⟩
  | store1 (c : Cache) (t : TState) (n : Nat) (r : Option ModelBundle) :
      CStep storage mk ⟨c, TState.fetched r, t, n⟩
        ⟨cacheStore c mk r, TState.finished r, t, n⟩
  | store2 (c : Cache) (t : TState) (n : Nat) (r : Option ModelBundle) :
      CStep storage mk ⟨c, t, TState.fetched r, n⟩
        ⟨cacheStore c mk r, t, TState.finished r, n⟩

/-- A thread that has passed the membership test on a miss contributes
one download; a fresh or hit-served thread contributes none. -/
def threadDownloads : TState → Nat
  | TState.start => 0
  | TState.fetched _ => 1
  | TState.finished _ => 1

/-! ## Concrete fixtures -/

/-- A storage on which every download fails. -/
def storNone : Storage := fun _ => none

/-- A loaded Porsche bundle whose regressor is the constant log-price 11
and whose training vocabulary is one model, one color, one
transmission. -/
noncomputable def bPorsche : ModelBundle :=
  ⟨fun _ => 11, ⟨["911"]⟩, ⟨["black"]⟩, ⟨["manual"]⟩⟩

/-- A bundle whose regressor outputs the constant log-price `-1`, as a
fit over sub-unit sale prices would. -/
noncomputable def bNeg : ModelBundle :=
  ⟨fun _ => -1, ⟨["911"]⟩, ⟨["black"]⟩, ⟨["manual"]⟩⟩

/-- A bundle whose regressor outputs the constant log-price `0`. -/
noncomputable def bZero : ModelBundle :=
  ⟨fun _ => 0, ⟨["911"]⟩, ⟨["black"]⟩, ⟨["manual"]⟩⟩

/-- A storage serving the `bNeg` bundle for every make. -/
noncomputable def storNeg : Storage := fun _ => some bNeg

/-- A storage serving the `bZero` bundle for every make. -/
noncomputable def storZero : Storage := fun _ => some bZero

/-- The spec's end-to-end example request. -/
def req911 : PredReq :=
  ⟨some "Porsche", some "911", some 2015, some 40000, some "black", some "manual"⟩

/-- The example request with `mileage` absent. -/
def reqNoMileage : PredReq :=
  ⟨some "Porsche", some "911", some 2015, none, some "black", some "manual"⟩

/-- The example request with `year` absent. -/
def reqNoYear : PredReq :=
  ⟨some "Porsche", some "911", none, some 40000, some "black", some "manual"⟩

/-- A request for a make whose download fails. -/
def reqAcme : PredReq :=
  ⟨some "Acme", some "M3", some 2015, some 40000, some "black", some "manual"⟩

/-- A cache holding a loaded Porsche bundle. -/
noncomputable def cachePorsche : Cache := [("Porsche", some bPorsche)]

/-- One complete auction row for the training table. -/
def dbRow : DbRecord :=
  ⟨some 2015, some "911", some 40000, some "black", some "manual",
   some 100000, some 95000, some 100, some "sold"⟩

/-- A table of twenty complete rows of one model, enough to train. -/
def tbl20 : List DbRecord := List.replicate 20 dbRow

/-- A table of three rows, too few to train. -/
def tbl3 : List DbRecord := List.replicate 3 dbRow

/-- Parameters a low-scoring grid search might choose. -/
def pLow : Params := ⟨100, "squared_error"⟩

/-- An sklearn oracle whose fit scores `1/2`, below the spec's floor. -/
noncomputable def skLow : Sklearn := fun _ => ⟨fun _ => 0, 1/2, pLow⟩

/-- An encoded feature row used to inspect the fit matrix. -/
noncomputable def frow0 : FeatureRow := ⟨2015, 1, 10, 2, 0, 37/100⟩

/-- A non-model training record with a known end date, for inspecting the
weight column. -/
def trainRec0 : TrainRecord :=
  ⟨2015, "911", 40000, "black", "manual", some 100000, some 95000,
   some 100, some "sold"⟩

/-! ## Helper lemmas -/

/-- The jsonified `int(np.exp(pred))` is never negative. -/
theorem pyInt_exp_nonneg (x : ℝ) : 0 ≤ pyInt (Real.exp x) := by
  rw [pyInt, if_pos (Real.exp_pos x).le, Int.floor_nonneg]
  exact (Real.exp_pos x).le

/-- The jsonified `int(np.exp(pred))` is positive when the log-price
output is non-negative. -/
theorem pyInt_exp_pos_of_nonneg {x : ℝ} (h : 0 ≤ x) : 0 < pyInt (Real.exp x) := by
  rw [pyInt, if_pos (Real.exp_pos x).le]
  have h1 : (1:ℤ) ≤ ⌊Real.exp x⌋ := by
    rw [Int.le_floor]
    exact_mod_cast Real.one_le_exp h
  omega

/-- The jsonified `int(np.exp(pred))` is positive exactly when the
log-price output is non-negative. -/
theorem pyInt_exp_pos_iff (x : ℝ) : 0 < pyInt (Real.exp x) ↔ 0 ≤ x := by
  constructor
  · intro h
    by_contra hneg
    push_neg at hneg
    have hlt : Real.exp x < 1 := by
      have := Real.exp_lt_exp.2 hneg
      rwa [Real.exp_zero] at this
    have h0 : pyInt (Real.exp x) = 0 := by
      rw [pyInt, if_pos (Real.exp_pos x).le, Int.floor_eq_zero_iff]
      exact ⟨(Real.exp_pos x).le, hlt⟩
    omega
  · exact pyInt_exp_pos_of_nonneg

/-- A row kept by `prepare_data` has a non-null end date. -/
theorem keepRow_end_date {r : TrainRecord} (h : keepRow r = true) :
    ∃ d, r.end_date = some d := by
  cases hfp : filled_price r <;> cases hb : r.bid_amount <;> cases hd : r.end_date <;>
      cases hs : r.status <;> simp [keepRow, hfp, hb, hd, hs] at h ⊢

/-! ## C2 -/

/-- C2: the claim says a failed bundle load leaves no cache entry and the
next request re-attempts the download.  The code violates both halves:
the first request for make `Acme` (whose download fails) stores the
Python `None` result under `Acme` in `models_cache` and answers 500; the
second identical request finds the poisoned entry, performs no load
(`didLoad = false`), and fails with the generic 500 produced by
subscripting `None` — the cache is permanently poisoned. -/
theorem c2_failed_load_poisons_cache :
    (predict storNone [] reqAcme).cache = [("Acme", none)]
    ∧ (predict storNone [] reqAcme).resp
        = Resp.err "Failed to load models for make: Acme" 500
    ∧ (predict storNone [("Acme", none)] reqAcme).didLoad = false
    ∧ (predict storNone [("Acme", none)] reqAcme).resp
        = Resp.err "Error during prediction: NoneType object is not subscriptable" 500 :=
  ⟨rfl, rfl, rfl, rfl⟩

/-! ## C6 -/

/-- C6 counterexample: the claim says a request missing a required
attribute fails with a `MissingFeatureError` naming the absent field(s).
The code does return 400 before any load, but with the fixed message
`Missing required features`: a request missing `mileage` and a request
missing `year` receive identical error bodies, so the response cannot be
naming the absent field, and no `MissingFeatureError` class exists. -/
theorem c6_counterexample :
    (predict storNone [] reqNoMileage).resp = Resp.err "Missing required features" 400
    ∧ (predict storNone [] reqNoYear).resp = Resp.err "Missing required features" 400
    ∧ (predict storNone [] reqNoMileage).resp = (predict storNone [] reqNoYear).resp
    ∧ (predict storNone [] reqNoMileage).didLoad = false :=
  ⟨rfl, rfl, rfl, rfl⟩

/-- C6 amended: a request missing any of the six required attributes
fails before any model loading (the cache is untouched and no load is
attempted) with a 400 response carrying the fixed error message
`Missing required features`, which does not name the absent field. -/
theorem c6_amended (storage : Storage) (c : Cache) (req : PredReq)
    (h : req.make = none ∨ req.model = none ∨ req.year = none ∨ req.mileage = none
        ∨ req.normalized_color = none ∨ req.transmission = none) :
    predict storage c req = ⟨c, Resp.err "Missing required features" 400, false⟩ := by
  obtain ⟨mk, mdl, yr, mi, co, tr⟩ := req
  cases mk <;> cases mdl <;> cases yr <;> cases mi <;> cases co <;> cases tr <;>
    simp_all [predict]

/-- C6 amended, witnessed on the request missing `mileage`. -/
theorem c6_amended_witness :
    predict storNone [] reqNoMileage
      = ⟨[], Resp.err "Missing required features" 400, false⟩ :=
  c6_amended storNone [] reqNoMileage (Or.inr (Or.inr (Or.inr (Or.inl rfl))))

/-! ## C3 -/

/-- C9 counterexample: the claim says every valid in-vocabulary request
against a successfully loaded bundle returns a positive price.  The
response carries `int(np.exp(pred))`; for a bundle whose regressor
outputs the log-price `-1` (as a fit over sub-unit sale prices would),
the spec's example request is answered with prediction `0`, which is not
positive. -/
theorem c9_counterexample :
    (predict storNeg [] req911).resp = Resp.ok 0 ∧ ¬ ((0:ℤ) < 0) := by
  refine ⟨?_, by decide⟩
  have h1 : (predict storNeg [] req911).resp = Resp.ok (pyInt (Real.exp (-1))) := rfl
  have h2 : pyInt (Real.exp (-1)) = 0 := by
    have hpos := (Real.exp_pos (-1)).le
    rw [pyInt, if_pos hpos, Int.floor_eq_zero_iff]
    refine ⟨hpos, ?_⟩
    have := Real.exp_lt_exp.2 (show (-1:ℝ) < 0 by norm_num)
    rwa [Real.exp_zero] at this
  rw [h1, h2]

/-- C9 amended: on the success path (request complete, categories in
vocabulary, bundle available from the cache or loaded fresh) the route
returns exactly the integer truncation of `exp` applied to the
regressor's log-price output on the fixed serving row; that real price
is positive (and, over the reals, finite), and the returned JSON
prediction is never negative and is positive exactly when the
regressor's log-price output is non-negative. -/
theorem c9_amended (storage : Storage) (c : Cache) (mk mdl : String) (yr mi : ℚ)
    (col tr : String) (b : ModelBundle) (im ic it : Nat)
    (hb : cacheLookup c mk = some (some b)
        ∨ (cacheLookup c mk = none ∧ storage mk = some b))
    (h1 : b.labels_model.transform mdl = some im)
    (h2 : b.labels_color.transform col = some ic)
    (h3 : b.labels_transmission.transform tr = some it) :
    (predict storage c ⟨some mk, some mdl, some yr, some mi, some col, some tr⟩).resp
        = Resp.ok (pyInt (Real.exp (b.model (servingRow yr mi im ic it))))
      ∧ 0 < Real.exp (b.model (servingRow yr mi im ic it))
      ∧ 0 ≤ pyInt (Real.exp (b.model (servingRow yr mi im ic it)))
      ∧ (0 < pyInt (Real.exp (b.model (servingRow yr mi im ic it)))
          ↔ 0 ≤ b.model (servingRow yr mi im ic it)) := by
  refine ⟨?_, Real.exp_pos _, pyInt_exp_nonneg _, pyInt_exp_pos_iff _⟩
  rcases hb with hc | ⟨hc, hs⟩
  · simp [predict, hc, serveTransformAndPredict, h1, h2, h3]
  · simp [predict, hc, load_models_for_make, hs, serveTransformAndPredict, h1, h2, h3]

/-- C9 amended, witnessed on a bundle whose regressor outputs log-price
`0`: the returned prediction is `int(exp(0)) = 1 > 0`. -/
theorem c9_amended_witness :
    (predict storZero [] req911).resp
        = Resp.ok (pyInt (Real.exp (bZero.model (servingRow 2015 40000 0 0 0))))
      ∧ 0 < Real.exp (bZero.model (servingRow 2015 40000 0 0 0))
      ∧ 0 ≤ pyInt (Real.exp (bZero.model (servingRow 2015 40000 0 0 0)))
      ∧ (0 < pyInt (Real.exp (bZero.model (servingRow 2015 40000 0 0 0)))
          ↔ 0 ≤ bZero.model (servingRow 2015 40000 0 0 0)) :=
  c9_amended storZero [] "Porsche" "911" 2015 40000 "black" "manual" bZero 0 0 0
    (Or.inr ⟨rfl, rfl⟩) rfl rfl rfl

/-! ## C5 -/

/-- C5 counterexample: the claim says N concurrent first-requests for
the same unloaded make perform at most one download.  The cache section
has no lock: from the empty cache, the interleaving in which both
threads pass the membership test before either stores its result is
reachable and performs two downloads. -/
theorem c5_counterexample :
    Relation.ReflTransGen (CStep storNeg "Porsche")
      ⟨[], TState.start, TState.start, 0⟩
      ⟨[("Porsche", some bNeg), ("Porsche", some bNeg)],
        TState.finished (some bNeg), TState.finished (some bNeg), 2⟩
    ∧ ¬ ((2:Nat) ≤ 1) := by
  refine ⟨?_, by decide⟩
  have s1 : CStep storNeg "Porsche"
      ⟨[], TState.start, TState.start, 0⟩
      ⟨[], TState.fetched (some bNeg), TState.start, 1⟩ :=
    CStep.miss1 [] TState.start 0 rfl
  have s2 : CStep storNeg "Porsche"
      ⟨[], TState.fetched (some bNeg), TState.start, 1⟩
      ⟨[], TState.fetched (some bNeg), TState.fetched (some bNeg), 2⟩ :=
    CStep.miss2 [] (TState.fetched (some bNeg)) 1 rfl
  have s3 : CStep storNeg "Porsche"
      ⟨[], TState.fetched (some bNeg), TState.fetched (some bNeg), 2⟩
      ⟨[("Porsche", some bNeg)], TState.finished (some bNeg),
        TState.fetched (some bNeg), 2⟩ :=
    CStep.store1 [] (TState.fetched (some bNeg)) 2 (some bNeg)
  have s4 : CStep storNeg "Porsche"
      ⟨[("Porsche", some bNeg)], TState.finished (some bNeg),
        TState.fetched (some bNeg), 2⟩
      ⟨[("Porsche", some bNeg), ("Porsche", some bNeg)],
        TState.finished (some bNeg), TState.finished (some bNeg), 2⟩ :=
    CStep.store2 [("Porsche", some bNeg)] (TState.finished (some bNeg)) 2 (some bNeg)
  exact Relation.ReflTransGen.tail
    (Relation.ReflTransGen.tail
      (Relation.ReflTransGen.tail
        (Relation.ReflTransGen.tail Relation.ReflTransGen.refl s1) s2) s3) s4

/-- C5 amended: the unsynchronized check-then-load gives no at-most-one
guarantee across concurrent requests; what holds is that each request
thread performs at most one download, so two concurrent first-requests
for the same make perform at most two (and, by the counterexample,
exactly two is reachable). -/
theorem c5_amended (storage : Storage) (mk : String) (c0 : Cache) (s : CState)
    (h : Relation.ReflTransGen (CStep storage mk)
        ⟨c0, TState.start, TState.start, 0⟩ s) :
    s.downloads ≤ 2 := by
  have key : s.downloads ≤ threadDownloads s.t1 + threadDownloads s.t2 := by
    induction h with
    | refl => simp [threadDownloads]
    | tail hab hbc ih =>
        cases hbc <;> simp [threadDownloads] at ih ⊢ <;> omega
  have h1 : threadDownloads s.t1 ≤ 1 := by cases s.t1 <;> simp [threadDownloads]
  have h2 : threadDownloads s.t2 ≤ 1 := by cases s.t2 <;> simp [threadDownloads]
  omega

/-- C5 amended, witnessed at the initial state of the two-thread
system. -/
theorem c5_amended_witness :
    (⟨[], TState.start, TState.start, 0⟩ : CState).downloads ≤ 2 :=
  c5_amended storNone "Porsche" [] _ Relation.ReflTransGen.refl

/-! ## C7 -/

/-- C7: a make whose fetched frame, after the query's completeness
filters and the `min_observations` model-count filter, has fewer than 20
rows is skipped: no training, no metadata upsert, no bundle save, status
reported as a skip; and the batch loop still visits every make. -/
theorem c7_insufficient_rows_skip (sk : Sklearn) (table : List DbRecord) (make : String)
    (today : Int) (metaOk saveOk : Bool)
    (h : (fetch_data table 10).length < 20) :
    process_make sk table make today metaOk saveOk
      = ([], RunStatus.skippedInsufficientData)
    ∧ ∀ (tables : String → List DbRecord) (makes : List String)
        (mo so : String → Bool),
        (mainBatch sk tables makes today mo so).length = makes.length := by
  refine ⟨?_, fun tables makes mo so => by simp [mainBatch]⟩
  rw [process_make, if_pos h]

/-- C7 witnessed on a three-row table. -/
theorem c7_witness :
    process_make skLow tbl3 "Porsche" 0 true true
      = ([], RunStatus.skippedInsufficientData) :=
  (c7_insufficient_rows_skip skLow tbl3 "Porsche" 0 true true (by decide)).1

/-! ## C1 -/

/-- C1 counterexample: the claim says a make whose fitted score is
`≤ 0.8` yields no bundle and no metadata write.  On a twenty-row table
with a grid search scoring `1/2 ≤ 0.8`, the run nevertheless performs
both the metadata upsert and the bundle save: no quality floor exists in
the code. -/
theorem c1_counterexample :
    process_make skLow tbl20 "Porsche" 0 true true
      = ([Effect.metaUpsert "Porsche" (1/2) pLow, Effect.bundleSave "Porsche"],
         RunStatus.completed)
    ∧ ((1/2 : ℝ) ≤ 0.8) := by
  exact ⟨rfl, by norm_num⟩

/-- C1 amended: persistence is unconditional on the score.  Whenever the
fetched frame has at least 20 rows, the run ends with exactly the
metadata upsert followed by the bundle save, whatever score the fit
reports — the code has no 0.8 quality floor. -/
theorem c1_amended (sk : Sklearn) (table : List DbRecord) (make : String) (today : Int)
    (h : 20 ≤ (fetch_data table 10).length) :
    ∃ fr : FitResult,
      process_make sk table make today true true
        = ([Effect.metaUpsert make fr.score fr.best_params, Effect.bundleSave make],
           RunStatus.completed) := by
  refine ⟨train_model sk
      (encode_features (prepare_data (fetch_data table 10) today).1).1
      (prepare_data (fetch_data table 10) today).2, ?_⟩
  rw [process_make, if_neg (Nat.not_lt.2 h)]
  rfl

/-- C1 amended, witnessed on the twenty-row table with the low-scoring
oracle. -/
theorem c1_amended_witness :
    ∃ fr : FitResult,
      process_make skLow tbl20 "Porsche" 0 true true
        = ([Effect.metaUpsert "Porsche" fr.score fr.best_params,
            Effect.bundleSave "Porsche"], RunStatus.completed) :=
  c1_amended skLow tbl20 "Porsche" 0 (by decide)

/-! ## C10 -/

/-- C10: once the frame has at least 20 rows and the fit returns, the
metadata upsert is executed before the bundle archive is written: when
both persistence steps succeed the effect trace is exactly
`[metaUpsert, bundleSave]` in that order, and when `save_model` raises
after the successful fit the trace is `[metaUpsert]` alone — the
metadata record was already written although no new bundle exists. -/
theorem c10_meta_written_before_bundle (sk : Sklearn) (table : List DbRecord)
    (make : String) (today : Int)
    (h : 20 ≤ (fetch_data table 10).length) :
    ∃ fr : FitResult,
      process_make sk table make today true true
        = ([Effect.metaUpsert make fr.score fr.best_params, Effect.bundleSave make],
           RunStatus.completed)
      ∧ process_make sk table make today true false
        = ([Effect.metaUpsert make fr.score fr.best_params], RunStatus.failed) := by
  refine ⟨train_model sk
      (encode_features (prepare_data (fetch_data table 10) today).1).1
      (prepare_data (fetch_data table 10) today).2, ?_, ?_⟩ <;>
    · rw [process_make, if_neg (Nat.not_lt.2 h)]
      rfl

/-- C10 witnessed on the twenty-row table. -/
theorem c10_witness :
    ∃ fr : FitResult,
      process_make skLow tbl20 "Porsche" 0 true true
        = ([Effect.metaUpsert "Porsche" fr.score fr.best_params,
            Effect.bundleSave "Porsche"], RunStatus.completed)
      ∧ process_make skLow tbl20 "Porsche" 0 true false
        = ([Effect.metaUpsert "Porsche" fr.score fr.best_params], RunStatus.failed) :=
  c10_meta_written_before_bundle skLow tbl20 "Porsche" 0 (by decide)

/-! ## C8 -/

/-- C8: every row of the prepared frame carries the recency weight
`K * exp(-days_since_end / T)` with `K = 1`, `T = 360` and
`days_since_end = today - end_date` in whole days; the fit receives
exactly the frame's `W` column as its per-row `sample_weight`; and row
survival in `prepare_data` never depends on the value of the end date
(the weight is not used as a filter). -/
theorem c8_recency_weight (rows : List TrainRecord) (today : Int) :
    (∀ p ∈ (prepare_data rows today).1, ∃ r ∈ rows, ∃ d : Int,
        r.end_date = some d
        ∧ p.W = 1 * Real.exp (-(((today - d : Int) : ℝ)) / 360))
    ∧ (∀ (X : List FeatureRow) (y : List ℝ),
        (fitCallOf X y).sampleWeight = X.map (·.W))
    ∧ (∀ (r : TrainRecord) (d d' : Int),
        keepRow { r with end_date := some d }
          = keepRow { r with end_date := some d' }) := by
  refine ⟨?_, fun X y => rfl, ?_⟩
  · intro p hp
    rw [prepare_data] at hp
    simp only [List.mem_map] at hp
    obtain ⟨r, hr, hpr⟩ := hp
    rw [List.mem_filter] at hr
    obtain ⟨d, hd⟩ := keepRow_end_date hr.2
    refine ⟨r, hr.1, d, hd, ?_⟩
    rw [← hpr]
    simp [mkPrepRow, recencyWeight, hd]
  · intro r d d'
    cases hsp : r.sold_price <;> cases hb : r.bid_amount <;> cases hs : r.status <;>
      simp [keepRow, filled_price, hsp, hb, hs]

/-- C8 witnessed on a one-row table whose end date lies 360 days before
the reference date: the row's weight is `exp(-360/360)`. -/
theorem c8_witness :
    ∃ r ∈ [trainRec0], ∃ d : Int,
      r.end_date = some d
      ∧ (mkPrepRow 460 trainRec0).W
          = 1 * Real.exp (-(((460 - d : Int) : ℝ)) / 360) :=
  (c8_recency_weight [trainRec0] 460).1 (mkPrepRow 460 trainRec0)
    (show mkPrepRow 460 trainRec0 ∈ [mkPrepRow 460 trainRec0] from
      List.mem_singleton_self _)

/-! ## C4 -/

/-- The feature matrix as the spec words it: exactly the five
model-input columns, the weight column excluded.  Modelled from the
spec for comparison with the source's `toVector`. -/
noncomputable def specFiveColRow (r : FeatureRow) : List ℝ :=
  [(r.year : ℝ), (r.model : ℝ), r.mileage,
   (r.normalized_color : ℝ), (r.transmission : ℝ)]

/-- C4 counterexample: the claim says the weight placeholder column is
excluded from the feature matrix passed to the fit, which then has
exactly five columns.  The fit-call built at `train_model` hands sklearn
the full frame: on a concrete encoded row the matrix row is the
six-entry vector, not the spec's five-column row, and its last entry is
the row's weight. -/
theorem c4_counterexample :
    (fitCallOf [frow0] [1]).matrix = [toVector frow0]
    ∧ toVector frow0 ≠ specFiveColRow frow0
    ∧ (toVector frow0).length = 6
    ∧ (toVector frow0).getLast? = some (frow0.W) := by
  refine ⟨rfl, ?_, rfl, rfl⟩
  intro hEq
  have hlen := congrArg List.length hEq
  simp [toVector, specFiveColRow] at hlen

/-- C4 amended: training and serving consume the same six-column matrix
in the same order.  At training time every frame row enters the fit
matrix as the five model-input columns followed by the weight column
(which also supplies `sample_weight`); at serving time the regressor is
invoked on the five transformed columns followed by the constant 1. -/
theorem c4_amended (X : List FeatureRow) (y : List ℝ) (r : FeatureRow) (hr : r ∈ X)
    (storage : Storage) (c : Cache) (mk mdl : String) (yr mi : ℚ) (col tr : String)
    (b : ModelBundle) (im ic it : Nat)
    (hc : cacheLookup c mk = some (some b))
    (h1 : b.labels_model.transform mdl = some im)
    (h2 : b.labels_color.transform col = some ic)
    (h3 : b.labels_transmission.transform tr = some it) :
    toVector r ∈ (fitCallOf X y).matrix
    ∧ toVector r = specFiveColRow r ++ [r.W]
    ∧ (predict storage c ⟨some mk, some mdl, some yr, some mi, some col, some tr⟩).resp
        = Resp.ok (pyInt (Real.exp (b.model (servingRow yr mi im ic it))))
    ∧ servingRow yr mi im ic it
        = [(yr : ℝ), (im : ℝ), Real.log (1 + (mi : ℝ)), (ic : ℝ), (it : ℝ)] ++ [1] := by
  refine ⟨?_, by simp [toVector, specFiveColRow], ?_, by simp [servingRow]⟩
  · rw [fitCallOf]
    exact List.mem_map_of_mem toVector hr
  · simp [predict, hc, serveTransformAndPredict, h1, h2, h3]

/-- C4 amended, witnessed on a concrete encoded row and the loaded
Porsche bundle. -/
theorem c4_amended_witness :
    toVector frow0 ∈ (fitCallOf [frow0] [1]).matrix
    ∧ toVector frow0 = specFiveColRow frow0 ++ [frow0.W]
    ∧ (predict storNone cachePorsche req911).resp
        = Resp.ok (pyInt (Real.exp (bPorsche.model (servingRow 2015 40000 0 0 0))))
    ∧ servingRow 2015 40000 0 0 0
        = [(2015 : ℝ), ((0:Nat) : ℝ), Real.log (1 + ((40000:ℚ) : ℝ)),
           ((0:Nat) : ℝ), ((0:Nat) : ℝ)] ++ [1] :=
  c4_amended [frow0] [1] frow0 (by simp) storNone cachePorsche "Porsche" "911"
    2015 40000 "black" "manual" bPorsche 0 0 0 rfl rfl rfl rfl

end Autostrada
